import Mathlib

/-
Verification development for the Selectarr repository.

Shallow embedding of:
  * src/src/selectarr/query_parser.py   (parse_query_conditions, matches_all_conditions,
                                         matches_condition)
  * src/run.py                          (the duplicated matches_condition)
  * src/src/selectarr/collection_manager.py (process_collections)
  * src/src/selectarr/jellyfin_client.py    (the filtering list comprehension in
                                             get_media_items; add/remove early returns)

Python values flowing through the evaluator are modelled by the small universe `PyV`
(strings, ints, bools), which is exactly the set of types the evaluator can see:
condition values are always `str` (pyparsing returns matched text), item attributes
coming from the Jellyfin JSON are strings / ints / bools.  A Python function that can
raise is modelled as returning `Option` (`none` = an exception escapes).
Character-level operations (lower/upper/digit tests) are modelled on ASCII, which is
the alphabet of the grammar and of all field names handled by the code.
-/

/-- A Python value as seen by the condition evaluator: `str`, `int` or `bool`. -/
inductive PyV where
  | pstr : String → PyV
  | pint : Int → PyV
  | pbool : Bool → PyV
deriving DecidableEq

/-- Numeric view of a Python value; `bool` is an `int` subtype in Python. -/
def pyNum : PyV → Int
  | .pstr _ => 0
  | .pint n => n
  | .pbool b => if b then 1 else 0

/-- Python `==` on the modelled value universe: `bool` and `int` compare numerically,
`str` never equals a numeric value. -/
def pyEq : PyV → PyV → Bool
  | .pstr a, .pstr b => a == b
  | .pstr _, _ => false
  | _, .pstr _ => false
  | a, b => pyNum a == pyNum b

/-- Python `<`: defined within strings (lexicographic) and within numerics
(`bool` as 0/1); comparing a string against a numeric raises `TypeError` (`none`). -/
def pyLt : PyV → PyV → Option Bool
  | .pstr a, .pstr b => some (decide (a < b))
  | .pstr _, _ => none
  | _, .pstr _ => none
  | a, b => some (decide (pyNum a < pyNum b))

/-- Python `str()` of a modelled value. -/
def pyStr : PyV → String
  | .pstr s => s
  | .pint n => toString n
  | .pbool b => if b then "True" else "False"

/-- Boolean prefix test on character lists. -/
def charsPrefix : List Char → List Char → Bool
  | [], _ => true
  | _ :: _, [] => false
  | a :: as, b :: bs => a == b && charsPrefix as bs

/-- Boolean contiguous-substring test on character lists. -/
def charsInfix (needle : List Char) : List Char → Bool
  | [] => needle.isEmpty
  | c :: rest => charsPrefix needle (c :: rest) || charsInfix needle rest

/-- Python `needle in hay` on strings: substring containment. -/
def pyInStr (needle hay : String) : Bool :=
  charsInfix needle.toList hay.toList

/-- ASCII model of Python `str.lower()`. -/
def strLower (s : String) : String :=
  String.mk (s.toList.map Char.toLower)

/-- ASCII model of Python `str.upper()`. -/
def strUpper (s : String) : String :=
  String.mk (s.toList.map Char.toUpper)

/-- Characters stripped by Python `int(str)` before conversion. -/
def isPyStripWs (c : Char) : Bool :=
  c = ' ' || c = '\t' || c = '\n' || c = '\r' || c = '\x0b' || c = '\x0c'

/-- Accumulate a decimal digit run; fails on a non-digit character. -/
def digitsVal : List Char → Nat → Option Nat
  | [], acc => some acc
  | c :: cs, acc =>
    if c.isDigit then digitsVal cs (acc * 10 + (c.toNat - '0'.toNat)) else none

/-- Model of Python `int(s)` on a `str`: strip whitespace, optional sign, decimal
digits; anything else raises `ValueError` (`none`).  (Underscore separators and
non-ASCII digits, which CPython also accepts, do not occur in this code's inputs.) -/
def pyIntOfString (s : String) : Option Int :=
  match ((s.toList.dropWhile isPyStripWs).reverse.dropWhile isPyStripWs).reverse with
  | [] => none
  | '-' :: ds =>
    match ds with
    | [] => none
    | _ => (digitsVal ds 0).map (fun n => -(n : Int))
  | '+' :: ds =>
    match ds with
    | [] => none
    | _ => (digitsVal ds 0).map (fun n => (n : Int))
  | ds => (digitsVal ds 0).map (fun n => (n : Int))

/-- The generic operator dispatch shared by both `matches_condition` copies
(`src/src/selectarr/query_parser.py` lines 116-131, `src/run.py` lines 163-178):
`=`, `!=`, `>`, `<`, `>=`, `<=`, `LIKE`, with a final `return False` fallback.
Python `a > b` is `b < a` and `a >= b` is `not (a < b)` on the (total) string and
numeric orders that can occur here. -/
def pyApplyOp (op : String) (l r : PyV) : Option Bool :=
  if op = "=" then some (pyEq l r)
  else if op = "!=" then some (!(pyEq l r))
  else if op = ">" then pyLt r l
  else if op = "<" then pyLt l r
  else if op = ">=" then (pyLt l r).map (fun b => !b)
  else if op = "<=" then (pyLt r l).map (fun b => !b)
  else if op = "LIKE" then some (pyInStr (pyStr r) (pyStr l))
  else some false

/-- A parsed condition dictionary: keys `field`, `operator`, `value`
(`parse_query_conditions` stores the matched text of each part, always a `str`). -/
structure Condition where
  field : String
  operator : String
  value : String
deriving DecidableEq

/-- The `UserData` sub-dictionary of a media item; `Option` models key presence
(`user_data.get('Played', False)` / `user_data.get('PlayCount', 0)`). -/
structure UserData where
  Played : Option Bool
  PlayCount : Option Int
deriving DecidableEq

/-- A media item as consumed by the evaluator: the specially-handled keys
`UserData`, `SeriesName`, `ProductionYear` (typed as the Jellyfin API delivers
them), plus the remaining flat attributes for the generic lookup branch. -/
structure Item where
  userData : Option UserData
  seriesName : Option String
  productionYear : Option Int
  attrs : List (String × PyV)
deriving DecidableEq

/-- `item.get(field, '')` on the generic attributes (first match; a Python dict
has unique keys). -/
def attrLookup : List (String × PyV) → String → PyV
  | [], _ => .pstr ""
  | (k, v) :: rest, f => if k = f then v else attrLookup rest f

/-- `matches_condition` from `src/src/selectarr/query_parser.py` (lines 72-131).
`none` models an escaping exception (`ValueError` from `int(value)`, `TypeError`
from an ordered comparison between a string and a numeric). -/
def matches_condition (item : Item) (c : Condition) : Option Bool :=
  let field := strLower c.field
  let op := strUpper c.operator
  if field = "played" then
    let played_status := (item.userData.bind UserData.Played).getD false
    let play_count := (item.userData.bind UserData.PlayCount).getD 0
    if strLower c.value = "false" then
      pyApplyOp op (.pbool (!played_status && play_count == 0)) (.pbool true)
    else if strLower c.value = "true" then
      pyApplyOp op (.pbool (played_status || decide (0 < play_count))) (.pbool true)
    else
      pyApplyOp op (.pbool false) (.pstr c.value)
  else if field = "seriesname" then
    pyApplyOp op (.pstr (strLower (item.seriesName.getD ""))) (.pstr (strLower c.value))
  else if field = "productionyear" then
    match pyIntOfString c.value with
    | none => none
    | some v =>
      let item_value := item.productionYear.getD 0
      if item_value = 0 then some false
      else pyApplyOp op (.pint item_value) (.pint v)
  else
    pyApplyOp op (attrLookup item.attrs field) (.pstr c.value)

/-- True for the seven operator tokens the dispatch chain tests for. -/
def isKnownOp (op : String) : Bool :=
  op = "=" || op = "!=" || op = ">" || op = "<" || op = ">=" || op = "<=" || op = "LIKE"

/-- `matches_condition` from `src/run.py` (lines 125-178).  Differences from the
package copy: the `played` branch has no `else`, so a literal other than
true/false leaves `item_value` unbound and every known operator raises
`UnboundLocalError` (an unknown operator would fall through to `return False`
without touching it); the `productionyear` branch has no missing/zero-year
sentinel. -/
def run_matches_condition (item : Item) (c : Condition) : Option Bool :=
  let field := strLower c.field
  let op := strUpper c.operator
  if field = "played" then
    let played_status := (item.userData.bind UserData.Played).getD false
    let play_count := (item.userData.bind UserData.PlayCount).getD 0
    if strLower c.value = "false" then
      pyApplyOp op (.pbool (!played_status && play_count == 0)) (.pbool true)
    else if strLower c.value = "true" then
      pyApplyOp op (.pbool (played_status || decide (0 < play_count))) (.pbool true)
    else
      if isKnownOp op then none else some false
  else if field = "seriesname" then
    pyApplyOp op (.pstr (strLower (item.seriesName.getD ""))) (.pstr (strLower c.value))
  else if field = "productionyear" then
    match pyIntOfString c.value with
    | none => none
    | some v => pyApplyOp op (.pint (item.productionYear.getD 0)) (.pint v)
  else
    pyApplyOp op (attrLookup item.attrs field) (.pstr c.value)

/-- `matches_all_conditions` (query_parser.py lines 56-69): AND over the list,
returning at the first failing condition; an exception propagates. -/
def matches_all_conditions (item : Item) : List Condition → Option Bool
  | [] => some true
  | c :: rest =>
    match matches_condition item c with
    | none => none
    | some false => some false
    | some true => matches_all_conditions item rest

/-- The Filter Engine: the list comprehension in `get_media_items`
(jellyfin_client.py line 112) keeping items that match all conditions, in order;
the first exception aborts the whole comprehension. -/
def filter_items (items : List Item) (conds : List Condition) : Option (List Item) :=
  match items with
  | [] => some []
  | i :: rest =>
    match matches_all_conditions i conds with
    | none => none
    | some b =>
      match filter_items rest conds with
      | none => none
      | some tail => some (if b then i :: tail else tail)


/-
Parser embedding: `parse_query_conditions` (query_parser.py lines 13-53) builds a
pyparsing grammar
  CaselessKeyword("WHERE") + Group(field + operator + value)
                           + ZeroOrMore(CaselessKeyword("AND") + Group(...))
and runs `parseString` with the default `parseAll=False`, so input left over after
the last successfully parsed condition is ignored.  The embedding is a recursive
descent over the character list, threading the character just before the current
position (pyparsing `Keyword` checks the characters adjacent to the match).
`ParseException` is modelled by `Option`; the top-level handler turns it into `[]`.
-/

/-- Default pyparsing whitespace characters (`ParserElement.DEFAULT_WHITE_CHARS`). -/
def isPPWhite (c : Char) : Bool :=
  c = ' ' || c = '\n' || c = '\t'

/-- Keyword boundary characters (pyparsing `Keyword.DEFAULT_KEYWORD_CHARS`:
alphanumerics, underscore and dollar). -/
def isKeywordChar (c : Char) : Bool :=
  c.isAlphanum || c = '_' || c = '$'

/-- Skip leading whitespace, keeping track of the character before the new position. -/
def skipWs : Option Char → List Char → Option Char × List Char
  | prev, [] => (prev, [])
  | prev, c :: cs => if isPPWhite c then skipWs (some c) cs else (prev, c :: cs)

/-- Consume `kw` case-insensitively; returns the last consumed input character and
the remaining input. -/
def stripCaseless : List Char → List Char → Option Char → Option (Option Char × List Char)
  | [], cs, last => some (last, cs)
  | _ :: _, [], _ => none
  | k :: ks, c :: cs, _ =>
    if c.toUpper = k.toUpper then stripCaseless ks cs (some c) else none

/-- pyparsing `CaselessKeyword`: whitespace skip, then the keyword text, with the
characters on both sides required to be absent or non-keyword characters. -/
def pCaselessKeyword (kw : List Char) (prev : Option Char) (cs : List Char) :
    Option (Option Char × List Char) :=
  let s := skipWs prev cs
  if (match s.1 with | none => true | some c => !isKeywordChar c) then
    match stripCaseless kw s.2 none with
    | none => none
    | some (last, rest) =>
      match rest with
      | [] => some (last, rest)
      | c :: _ => if isKeywordChar c then none else some (last, rest)
  else none

/-- `Word(alphas, alphanums + "_")`: an ASCII letter followed by letters, digits or
underscores; returns the matched text. -/
def pField (prev : Option Char) (cs : List Char) :
    Option (String × Option Char × List Char) :=
  let s := skipWs prev cs
  match s.2 with
  | [] => none
  | c :: rest =>
    if c.isAlpha then
      let body := rest.takeWhile (fun d => d.isAlphanum || d = '_')
      let rem := rest.dropWhile (fun d => d.isAlphanum || d = '_')
      some (String.mk (c :: body), some (body.getLastD c), rem)
    else none

/-- The operator alternatives of `one_of "= != > < >= <= LIKE"` in the order the
pyparsing masking fix produces (a symbol that is a proper prefix of another is
tried after it), which realises longest-match among these seven tokens. -/
def opAlternatives : List (List Char) :=
  [['>', '='], ['<', '='], ['!', '='], ['L', 'I', 'K', 'E'], ['='], ['>'], ['<']]

/-- Try each operator alternative at the current position (case-insensitively,
no word-boundary requirement); returns the original matched slice. -/
def pOpTry (alts : List (List Char)) (cs : List Char) :
    Option (String × Option Char × List Char) :=
  match alts with
  | [] => none
  | a :: rest =>
    match stripCaseless a cs none with
    | some (last, rem) => some (String.mk (cs.take a.length), last, rem)
    | none => pOpTry rest cs

/-- The operator token, after whitespace skipping. -/
def pOperator (prev : Option Char) (cs : List Char) :
    Option (String × Option Char × List Char) :=
  let s := skipWs prev cs
  pOpTry opAlternatives s.2

/-- `QuotedString('"')` with the defaults: no escape handling, single-line content;
returns the content without the quotes. -/
def pQuoted (cs : List Char) : Option (String × Option Char × List Char) :=
  match cs with
  | '"' :: rest =>
    let content := rest.takeWhile (fun c => c != '"' && c != '\n' && c != '\r')
    let rem := rest.dropWhile (fun c => c != '"' && c != '\n' && c != '\r')
    (match rem with
     | '"' :: rest2 => some (String.mk content, some '"', rest2)
     | _ => none)
  | _ => none

/-- `Regex(r'\d+')`: one or more decimal digits, matched greedily. -/
def pNumber (cs : List Char) : Option (String × Option Char × List Char) :=
  let ds := cs.takeWhile Char.isDigit
  match ds with
  | [] => none
  | _ => some (String.mk ds, some (ds.getLastD '0'), cs.dropWhile Char.isDigit)

/-- `one_of "true false"` (caseless, no word boundary): returns the original
matched slice. -/
def pBooleanTok (cs : List Char) : Option (String × Option Char × List Char) :=
  match stripCaseless ['T', 'R', 'U', 'E'] cs none with
  | some (last, rest) => some (String.mk (cs.take 4), last, rest)
  | none =>
    match stripCaseless ['F', 'A', 'L', 'S', 'E'] cs none with
    | some (last, rest) => some (String.mk (cs.take 5), last, rest)
    | none => none

/-- `value = QuotedString('"') | Regex(r'\d+') | one_of("true false")`:
first alternative that matches at the position after whitespace skipping. -/
def pValue (prev : Option Char) (cs : List Char) :
    Option (String × Option Char × List Char) :=
  let s := skipWs prev cs
  match pQuoted s.2 with
  | some r => some r
  | none =>
    match pNumber s.2 with
    | some r => some r
    | none => pBooleanTok s.2

/-- `Group(field + operator + value)`. -/
def pCondition (prev : Option Char) (cs : List Char) :
    Option (Condition × Option Char × List Char) :=
  match pField prev cs with
  | none => none
  | some (f, p1, cs1) =>
    match pOperator p1 cs1 with
    | none => none
    | some (op, p2, cs2) =>
      match pValue p2 cs2 with
      | none => none
      | some (v, p3, cs3) => some (⟨f, op, v⟩, p3, cs3)

/-- `ZeroOrMore(CaselessKeyword("AND") + condition)`: keeps consuming
`AND condition` pairs and stops (without error) at the first failure, leaving the
remaining input unconsumed.  Each successful round consumes at least the three
keyword characters, so the input length bounds the rounds and serves as fuel. -/
def pConditionsLoop (fuel : Nat) (prev : Option Char) (cs : List Char) : List Condition :=
  match fuel with
  | 0 => []
  | fuel' + 1 =>
    match pCaselessKeyword ['A', 'N', 'D'] prev cs with
    | none => []
    | some (p1, cs1) =>
      match pCondition p1 cs1 with
      | none => []
      | some (c, p2, cs2) => c :: pConditionsLoop fuel' p2 cs2

/-- The mandatory head of the grammar: `CaselessKeyword("WHERE")` followed by the
first condition; its failure is the only way the whole parse fails. -/
def pWhereHead (cs : List Char) : Option (Condition × Option Char × List Char) :=
  match pCaselessKeyword ['W', 'H', 'E', 'R', 'E'] none cs with
  | none => none
  | some (p, cs1) => pCondition p cs1

/-- `parse_query_conditions` (query_parser.py lines 13-53): the grammar above via
`parseString` (default `parseAll=False`); a `ParseException` is logged and turned
into the empty list. -/
def parse_query_conditions (query : String) : List Condition :=
  match pWhereHead query.toList with
  | none => []
  | some (c, p, rest) => c :: pConditionsLoop (rest.length + 1) p rest


/-
Reconciler embedding: `process_collections` (collection_manager.py lines 14-145).
The remote server is modelled by a `World` of oracles; HTTP reads return
`Except Unit` (`Except.error` = the request raised), mutations are recorded in an
ordered trace of `Call`s, with a success oracle deciding whether the call raised
after being issued.  `get_media_items` (jellyfin_client.py) is HTTP fetching plus
the Filter Engine; at this level it is an oracle delivering the already-filtered
items (or an error), since the Reconciler only consumes its output shape.
`get_collection_items` also returns an id→display-name map that is used only for
log messages, so only the id list is modelled.  Python set values are modelled as
`Finset String`; the `next(iter(...))` example reported in the logs is drawn from
the same set in both dry-run and normal mode.
-/

/-- A mutating remote call issued by the reconciler. -/
inductive Call where
  | create : String → Call
  | add : String → Finset String → Call
  | remove : String → Finset String → Call
deriving DecidableEq

/-- One media item as consumed by the reconciler (only `Id` is used for the plan). -/
structure MediaItem where
  Id : String
deriving DecidableEq

/-- One entry of the `collections:` configuration: `query` and `from`
(with the `source_collection` fallback already folded in, defaulting to `''`). -/
structure CollectionConfig where
  query : String
  fromLib : String
deriving DecidableEq

/-- The external collaborators of `process_collections`. -/
structure World where
  existing : List (String × String)
  createCollection : String → Except Unit (Option String)
  getMediaItems : String → String → Except Unit (List MediaItem)
  getCollectionItems : String → Except Unit (List String)
  addOk : String → Finset String → Bool
  removeOk : String → Finset String → Bool

/-- Python truthiness test `not collection_id` for an optional string id. -/
def idFalsy : Option String → Bool
  | none => true
  | some s => s == ""

/-- The id lookup loop over `existing_collections` (first matching name). -/
def lookupId : List (String × String) → String → Option String
  | [], _ => none
  | (n, i) :: rest, name => if n = name then some i else lookupId rest name

/-- Lines 99-100: `items_to_add = desired - current`, `items_to_remove = current - desired`. -/
def reconcilePlan (desired current : Finset String) : Finset String × Finset String :=
  (desired \ current, current \ desired)

/-- Lines 102-136: issue the add call (when the addition set is non-empty and not in
dry-run), then the remove call likewise; an add failure raises, so the remove block
is never reached.  Returns the issued calls in order and the success flag. -/
def applyPlan (w : World) (dryRun : Bool) (cid : String) (toAdd toRemove : Finset String) :
    List Call × Bool :=
  if toAdd ≠ ∅ ∧ dryRun = false then
    if w.addOk cid toAdd then
      if toRemove ≠ ∅ ∧ dryRun = false then
        ([Call.add cid toAdd, Call.remove cid toRemove], w.removeOk cid toRemove)
      else ([Call.add cid toAdd], true)
    else ([Call.add cid toAdd], false)
  else
    if toRemove ≠ ∅ ∧ dryRun = false then
      ([Call.remove cid toRemove], w.removeOk cid toRemove)
    else ([], true)

/-- Lines 99-136 as one unit: the computed plan, the issued calls, success. -/
def reconcile (w : World) (dryRun : Bool) (cid : String) (desired current : Finset String) :
    (Finset String × Finset String) × List Call × Bool :=
  let plan := reconcilePlan desired current
  (plan, applyPlan w dryRun cid plan.1 plan.2)

/-- Lines 66-143: from the resolved (optional) collection id to the end of the loop
body.  Returns (error flag for this collection, updated existing-name set, calls
issued so far including `calls0` from the creation step). -/
def syncWithId (w : World) (dryRun : Bool) (names : Finset String) (cfg : CollectionConfig)
    (cid? : Option String) (calls0 : List Call) : Bool × Finset String × List Call :=
  if idFalsy cid? then (true, names, calls0)
  else
    let cid := cid?.getD ""
    if cfg.query ≠ "" ∧ cfg.fromLib ≠ "" then
      match w.getMediaItems cfg.fromLib cfg.query with
      | .error _ => (true, names, calls0)
      | .ok items =>
        match w.getCollectionItems cid with
        | .error _ => (true, names, calls0)
        | .ok cur =>
          let desired := (items.map MediaItem.Id).toFinset
          let r := reconcile w dryRun cid desired cur.toFinset
          (!r.2.2, names, calls0 ++ r.2.1)
    else (false, names, calls0)

/-- Lines 36-143: one iteration of the `for collection_name, collection_config`
loop: create the collection when its name is not yet known (in dry-run mode the
iteration is skipped with a log line instead), then resolve the id and synchronise. -/
def processOne (w : World) (dryRun : Bool) (names : Finset String)
    (entry : String × CollectionConfig) : Bool × Finset String × List Call :=
  if entry.1 ∉ names then
    if dryRun then (false, names, [])
    else
      match w.createCollection entry.1 with
      | .error _ => (true, names, [Call.create entry.1])
      | .ok cid? => syncWithId w dryRun (insert entry.1 names) entry.2 cid? [Call.create entry.1]
  else
    syncWithId w dryRun names entry.2 (lookupId w.existing entry.1) []

/-- The whole configuration loop, threading `existing_names` and accumulating
`has_errors` and the call trace. -/
def processCollectionsGo (w : World) (dryRun : Bool) :
    Finset String → List (String × CollectionConfig) → Bool × Finset String × List Call
  | names, [] => (false, names, [])
  | names, entry :: rest =>
    ((processOne w dryRun names entry).1
       || (processCollectionsGo w dryRun (processOne w dryRun names entry).2.1 rest).1,
     (processCollectionsGo w dryRun (processOne w dryRun names entry).2.1 rest).2.1,
     (processOne w dryRun names entry).2.2
       ++ (processCollectionsGo w dryRun (processOne w dryRun names entry).2.1 rest).2.2)

/-- `existing_names = {col['Name'] for col in existing_collections}` (line 28). -/
def initialNames (w : World) : Finset String :=
  (w.existing.map Prod.fst).toFinset

/-- `process_collections` (lines 14-145): returns `True` iff no per-collection
error occurred, paired here with the ordered trace of mutating calls issued. -/
def process_collections (w : World) (dryRun : Bool)
    (configs : List (String × CollectionConfig)) : Bool × List Call :=
  (!(processCollectionsGo w dryRun (initialNames w) configs).1,
   (processCollectionsGo w dryRun (initialNames w) configs).2.2)

/-
Concrete fixtures used by witnesses and counterexamples.
-/

/-- An item whose user has never started it: `Played=false, PlayCount=0`. -/
def itemNeverPlayed : Item := ⟨some ⟨some false, some 0⟩, none, none, []⟩

/-- An item with `Played=false` but `PlayCount=3` (started but not finished). -/
def itemPlayedThrice : Item := ⟨some ⟨some false, some 3⟩, none, none, []⟩

/-- An item with no `ProductionYear` attribute at all. -/
def itemNoYear : Item := ⟨none, none, none, []⟩

/-- An item whose series name is capitalised `"Foo"`. -/
def itemSeriesFoo : Item := ⟨none, some "Foo", none, []⟩

/-- A world in which every add batch fails (its HTTP call raises after being
issued) while reads succeed: collection `c1` holds nothing, the filter returns
one item `m1`, so reconciling `c1` issues one failing add call. -/
def wFail : World where
  existing := [("c1", "id1"), ("c2", "id2")]
  createCollection := fun _ => .error ()
  getMediaItems := fun _ _ => .ok [⟨"m1"⟩]
  getCollectionItems := fun _ => .ok []
  addOk := fun _ _ => false
  removeOk := fun _ _ => true

/-- A configuration entry with a non-empty query and library. -/
def cfgMain : CollectionConfig := ⟨"WHERE a = \"1\"", "Lib"⟩

/-- The collection whose add call fails in `wFail`. -/
def entryFail : String × CollectionConfig := ("c1", cfgMain)

/-- The sibling collection processed after the failure. -/
def entryNext : String × CollectionConfig := ("c2", cfgMain)


/-- Auxiliary: in dry-run mode the synchronisation step never appends a call. -/
theorem syncWithId_dry_calls (w : World) (names : Finset String) (cfg : CollectionConfig)
    (cid? : Option String) : (syncWithId w true names cfg cid? []).2.2 = [] := by
  simp only [syncWithId]
  split
  · rfl
  · split
    · cases hm : w.getMediaItems cfg.fromLib cfg.query with
      | error e => rfl
      | ok items =>
        cases hc : w.getCollectionItems (cid?.getD "") with
        | error e => rfl
        | ok cur => simp [reconcile, applyPlan]
    · rfl

/-- Auxiliary: the configuration fold splits over list concatenation. -/
theorem processCollectionsGo_append (w : World) (dryRun : Bool) (names : Finset String)
    (l1 l2 : List (String × CollectionConfig)) :
    processCollectionsGo w dryRun names (l1 ++ l2) =
      ((processCollectionsGo w dryRun names l1).1
         || (processCollectionsGo w dryRun (processCollectionsGo w dryRun names l1).2.1 l2).1,
       (processCollectionsGo w dryRun (processCollectionsGo w dryRun names l1).2.1 l2).2.1,
       (processCollectionsGo w dryRun names l1).2.2
         ++ (processCollectionsGo w dryRun (processCollectionsGo w dryRun names l1).2.1 l2).2.2) := by
  induction l1 generalizing names with
  | nil => simp [processCollectionsGo]
  | cons e rest ih => simp [processCollectionsGo, ih, Bool.or_assoc]

/-- C1: reconciling a collection whose current membership already equals the
desired set computes the empty plan (no additions, no removals) and issues no add
or remove call, in dry-run and normal mode alike; hence a second reconcile run
over unchanged state is a no-op. -/
theorem c1_reconcile_idempotent (w : World) (dryRun : Bool) (cid : String)
    (d : Finset String) : reconcile w dryRun cid d d = ((∅, ∅), [], true) := by
  simp [reconcile, reconcilePlan, applyPlan]

/-- C2: the computed plan is `(D \ C, C \ D)`; the two sides are disjoint and
applying the plan to the current set yields exactly the desired set. -/
theorem c2_plan_partition (d c : Finset String) :
    (reconcilePlan d c).1 = d \ c ∧ (reconcilePlan d c).2 = c \ d ∧
    Disjoint (reconcilePlan d c).1 (reconcilePlan d c).2 ∧
    (c ∪ (reconcilePlan d c).1) \ (reconcilePlan d c).2 = d := by
  refine ⟨rfl, rfl, ?_, ?_⟩
  · rw [Finset.disjoint_left]
    intro x hx hx2
    simp only [reconcilePlan, Finset.mem_sdiff] at hx hx2
    exact hx.2 hx2.1
  · ext x
    simp only [reconcilePlan, Finset.mem_sdiff, Finset.mem_union]
    tauto

/-- C4: for the same desired and current sets, dry-run mode computes the identical
plan (same addition and removal sets, hence the same reported counts and the same
sets from which the example item is drawn) while issuing zero calls; and a whole
dry-run collection iteration issues no call at all (in particular no create). -/
theorem c4_dry_run_frame :
    (∀ (w : World) (cid : String) (desired current : Finset String),
      (reconcile w true cid desired current).1 = (reconcile w false cid desired current).1 ∧
      (reconcile w true cid desired current).1.1.card
        = (reconcile w false cid desired current).1.1.card ∧
      (reconcile w true cid desired current).1.2.card
        = (reconcile w false cid desired current).1.2.card ∧
      (reconcile w true cid desired current).2.1 = []) ∧
    ∀ (w : World) (names : Finset String) (entry : String × CollectionConfig),
      (processOne w true names entry).2.2 = [] := by
  constructor
  · intro w cid desired current
    refine ⟨rfl, rfl, rfl, ?_⟩
    simp [reconcile, applyPlan]
  · intro w names entry
    simp only [processOne]
    split
    · rfl
    · exact syncWithId_dry_calls w names entry.2 (lookupId w.existing entry.1)

/-- C9: when processing one collection fails, the loop still marks the overall run
as failed (`process_collections` returns `False`) and the collections after the
failing one are processed exactly as they otherwise would be: the call trace is
the trace of the preceding collections, then the failing collection's calls, then
the trace of the following collections. -/
theorem c9_error_isolation (w : World) (dryRun : Bool)
    (pre post : List (String × CollectionConfig)) (entry : String × CollectionConfig)
    (h : (processOne w dryRun (processCollectionsGo w dryRun (initialNames w) pre).2.1 entry).1
           = true) :
    (process_collections w dryRun (pre ++ entry :: post)).1 = false ∧
    (process_collections w dryRun (pre ++ entry :: post)).2 =
      (processCollectionsGo w dryRun (initialNames w) pre).2.2
        ++ (processOne w dryRun (processCollectionsGo w dryRun (initialNames w) pre).2.1
              entry).2.2
        ++ (processCollectionsGo w dryRun
              (processOne w dryRun (processCollectionsGo w dryRun (initialNames w) pre).2.1
                 entry).2.1 post).2.2 := by
  have hs := processCollectionsGo_append w dryRun (initialNames w) pre (entry :: post)
  constructor
  · simp [process_collections, hs, processCollectionsGo, h]
  · simp [process_collections, hs, processCollectionsGo]

/-- C9 witness: in `wFail` the add call for collection `c1` fails; the run result
is `False`, yet the sibling collection `c2` after it is still reconciled (its
failing add call appears in the trace after `c1`'s). -/
theorem c9_witness :
    (processOne wFail false (processCollectionsGo wFail false (initialNames wFail) []).2.1
       entryFail).1 = true ∧
    ((process_collections wFail false ([] ++ entryFail :: [entryNext])).1 = false ∧
     (process_collections wFail false ([] ++ entryFail :: [entryNext])).2 =
       (processCollectionsGo wFail false (initialNames wFail) []).2.2
         ++ (processOne wFail false (processCollectionsGo wFail false (initialNames wFail) []).2.1
               entryFail).2.2
         ++ (processCollectionsGo wFail false
               (processOne wFail false
                  (processCollectionsGo wFail false (initialNames wFail) []).2.1 entryFail).2.1
               [entryNext]).2.2) :=
  ⟨by decide, c9_error_isolation wFail false [] [entryNext] entryFail (by decide)⟩

/-- C3 counterexample: parsing the malformed filter `Played false` fails and
returns the empty condition list, but filtering with that empty list returns the
FULL item list (the Filter Engine treats a failed parse as matching every item),
not the empty result the claim requires. -/
theorem c3_counterexample :
    parse_query_conditions "Played false" = [] ∧
    filter_items [itemNeverPlayed] (parse_query_conditions "Played false")
      = some [itemNeverPlayed] := by
  decide

/-- C3 amended: a failed parse yields the empty condition sequence, and the Filter
Engine treats it exactly like a zero-condition filter: every item matches, so
filtering any item list with the output of a failed parse returns the whole list.
Failure and "zero conditions" are indistinguishable at this boundary. -/
theorem c3_failed_parse_matches_every_item (s : String) (items : List Item)
    (h : parse_query_conditions s = []) :
    filter_items items (parse_query_conditions s) = some items := by
  rw [h]
  induction items with
  | nil => rfl
  | cons i rest ih => simp [filter_items, matches_all_conditions, ih]

/-- C3 witness: the amended theorem applied to the malformed filter of the spec's
scenario and a one-item list. -/
theorem c3_witness :
    parse_query_conditions "Played false" = [] ∧
    filter_items [itemPlayedThrice] (parse_query_conditions "Played false")
      = some [itemPlayedThrice] :=
  ⟨by decide, c3_failed_parse_matches_every_item "Played false" [itemPlayedThrice] (by decide)⟩

/-- C8 counterexample: the input `WHERE a = "1" xyz` does not conform to the
grammar `WHERE condition (AND condition)*` (the trailing `xyz` is neither empty
nor an `AND condition`), yet the parser returns a non-empty condition sequence:
`parseString` is run with the default `parseAll=False`, so trailing text is
silently ignored instead of causing the empty sequence the claim requires. -/
theorem c8_counterexample :
    parse_query_conditions "WHERE a = \"1\" xyz" = [⟨"a", "=", "1"⟩] := by decide

/-- C8 amended: the parser returns a non-empty sequence iff the input starts
(after optional whitespace) with the keyword `WHERE` followed by at least one
well-formed condition; in particular a bare condition list without `WHERE` yields
the empty sequence, while text remaining after the parsed conditions is ignored
rather than rejected. -/
theorem c8_parse_head_characterisation :
    (∀ s : String, parse_query_conditions s ≠ [] ↔ (pWhereHead s.toList).isSome) ∧
    parse_query_conditions "a = \"1\"" = [] ∧
    parse_query_conditions "WHERE b != 7 trailing" = [⟨"b", "!=", "7"⟩] := by
  refine ⟨?_, by decide, by decide⟩
  intro s
  unfold parse_query_conditions
  cases hw : pWhereHead s.toList with
  | none => simp
  | some r =>
    obtain ⟨c, p, rest⟩ := r
    simp

/-- C5: an item whose `ProductionYear` is absent or zero matches no
`productionyear` condition whatsoever: for any operator and any literal that
`int()` accepts, the evaluator returns non-match. -/
theorem c5_production_year_sentinel (item : Item) (c : Condition) (n : Int)
    (hf : strLower c.field = "productionyear")
    (hy : item.productionYear = none ∨ item.productionYear = some 0)
    (hv : pyIntOfString c.value = some n) :
    matches_condition item c = some false := by
  have hy0 : item.productionYear.getD 0 = 0 := by
    rcases hy with h | h <;> simp [h]
  simp [matches_condition, hf, hv, hy0]

/-- C5 witness: the sentinel theorem applied to an item with no `ProductionYear`
and the condition `ProductionYear != "1999"`. -/
theorem c5_witness :
    (strLower "ProductionYear" = "productionyear" ∧
     (itemNoYear.productionYear = none ∨ itemNoYear.productionYear = some 0) ∧
     pyIntOfString "1999" = some 1999) ∧
    matches_condition itemNoYear ⟨"ProductionYear", "!=", "1999"⟩ = some false :=
  ⟨⟨by decide, Or.inl rfl, by decide⟩,
   c5_production_year_sentinel itemNoYear ⟨"ProductionYear", "!=", "1999"⟩ 1999
     (by decide) (Or.inl rfl) (by decide)⟩

/-- C6: the played-field duality on concrete items: with `Played=false,
PlayCount=0` the item matches `Played = "false"` and fails `Played = "true"`;
with `Played=false, PlayCount=3` it matches `Played = "true"` and fails
`Played = "false"`. -/
theorem c6_played_duality :
    matches_condition itemNeverPlayed ⟨"Played", "=", "false"⟩ = some true ∧
    matches_condition itemNeverPlayed ⟨"Played", "=", "true"⟩ = some false ∧
    matches_condition itemPlayedThrice ⟨"Played", "=", "true"⟩ = some true ∧
    matches_condition itemPlayedThrice ⟨"Played", "=", "false"⟩ = some false := by
  decide

/-- C7 counterexample: under the condition `Played != "5"` — field `played`, a
literal that is neither true nor false — the evaluator returns a MATCH for an
ordinary item, because the invalid-literal branch sets the left side to the
Python bool `False`, which is `!=` to the string `"5"`.  The claim that every
operator yields non-match is therefore false at this input. -/
theorem c7_counterexample :
    matches_condition itemNeverPlayed ⟨"Played", "!=", "5"⟩ = some true := by decide

/-- C7 amended: for field `played` with a literal other than case-insensitive
true/false, the evaluator compares the Python bool `False` against the literal
string: `=` yields non-match, `!=` yields a match for every item, the four
ordered comparisons raise `TypeError`, and `LIKE` matches exactly when the
literal is a substring of `"False"`. -/
theorem c7_played_invalid_literal (item : Item) (f v : String)
    (hf : strLower f = "played")
    (h1 : strLower v ≠ "true") (h2 : strLower v ≠ "false") :
    matches_condition item ⟨f, "=", v⟩ = some false ∧
    matches_condition item ⟨f, "!=", v⟩ = some true ∧
    matches_condition item ⟨f, ">", v⟩ = none ∧
    matches_condition item ⟨f, "<", v⟩ = none ∧
    matches_condition item ⟨f, ">=", v⟩ = none ∧
    matches_condition item ⟨f, "<=", v⟩ = none ∧
    matches_condition item ⟨f, "LIKE", v⟩ = some (pyInStr v "False") := by
  have hm : ∀ op : String, matches_condition item ⟨f, op, v⟩
      = pyApplyOp (strUpper op) (.pbool false) (.pstr v) := by
    intro op
    simp [matches_condition, hf, h1, h2]
  refine ⟨?_, ?_, ?_, ?_, ?_, ?_, ?_⟩ <;> rw [hm] <;> rfl

/-- C7 witness: the amended characterisation at the literal `"5"`. -/
theorem c7_witness :
    (strLower "Played" = "played" ∧ strLower "5" ≠ "true" ∧ strLower "5" ≠ "false") ∧
    (matches_condition itemSeriesFoo ⟨"Played", "=", "5"⟩ = some false ∧
     matches_condition itemSeriesFoo ⟨"Played", "!=", "5"⟩ = some true ∧
     matches_condition itemSeriesFoo ⟨"Played", ">", "5"⟩ = none ∧
     matches_condition itemSeriesFoo ⟨"Played", "<", "5"⟩ = none ∧
     matches_condition itemSeriesFoo ⟨"Played", ">=", "5"⟩ = none ∧
     matches_condition itemSeriesFoo ⟨"Played", "<=", "5"⟩ = none ∧
     matches_condition itemSeriesFoo ⟨"Played", "LIKE", "5"⟩ = some (pyInStr "5" "False")) :=
  ⟨⟨by decide, by decide, by decide⟩,
   c7_played_invalid_literal itemSeriesFoo "Played" "5" (by decide) (by decide) (by decide)⟩

/-- C10 counterexample: on an item with no `ProductionYear` and the condition
`ProductionYear != "1999"`, the package evaluator returns non-match (sentinel)
while the `run.py` evaluator returns a match (it compares `0 != 1999`): the two
copies are not extensionally equal. -/
theorem c10_counterexample :
    run_matches_condition itemNoYear ⟨"ProductionYear", "!=", "1999"⟩
      ≠ matches_condition itemNoYear ⟨"ProductionYear", "!=", "1999"⟩ := by
  decide

/-- C10 amended: the two evaluators agree on every item and condition except in
the two diverging branches: a `productionyear` condition on an item whose year is
missing or zero (the package copy returns non-match, `run.py` compares against
0), and a `played` condition whose literal is not boolean (where `run.py` raises
`UnboundLocalError`). -/
theorem c10_evaluators_agree (item : Item) (c : Condition)
    (hpy : strLower c.field = "productionyear" → item.productionYear.getD 0 ≠ 0)
    (hpl : strLower c.field = "played" →
      strLower c.value = "true" ∨ strLower c.value = "false") :
    run_matches_condition item c = matches_condition item c := by
  by_cases h1 : strLower c.field = "played"
  · rcases hpl h1 with ht | hf2
    · simp [matches_condition, run_matches_condition, h1, ht]
    · simp [matches_condition, run_matches_condition, h1, hf2]
  · by_cases h2 : strLower c.field = "seriesname"
    · simp [matches_condition, run_matches_condition, h1, h2]
    · by_cases h3 : strLower c.field = "productionyear"
      · have hy := hpy h3
        cases hv : pyIntOfString c.value with
        | none => simp [matches_condition, run_matches_condition, h1, h2, h3, hv]
        | some n => simp [matches_condition, run_matches_condition, h1, h2, h3, hv, hy]
      · simp [matches_condition, run_matches_condition, h1, h2, h3]

/-- C10 witness: agreement of the two evaluators on a `seriesname` condition,
where neither excluded branch applies. -/
theorem c10_witness :
    ((strLower "SeriesName" = "productionyear" → itemSeriesFoo.productionYear.getD 0 ≠ 0) ∧
     (strLower "SeriesName" = "played" →
       strLower "foo" = "true" ∨ strLower "foo" = "false")) ∧
    run_matches_condition itemSeriesFoo ⟨"SeriesName", "=", "foo"⟩
      = matches_condition itemSeriesFoo ⟨"SeriesName", "=", "foo"⟩ :=
  ⟨⟨by decide, by decide⟩,
   c10_evaluators_agree itemSeriesFoo ⟨"SeriesName", "=", "foo"⟩ (by decide) (by decide)⟩
